import Mathlib

/-!
Shallow embedding of src/unnamed/part_000 (class PortainerService) of
sloebrich/portainer-deploy-stack-action, and proofs about its behaviour.

Each async method of the class performs a fixed linear sequence of awaited
HTTP calls.  We embed a method as a Lean function from the client state and
an oracle (the response the server would give to each kind of request) to an
OpResult: the list of requests actually issued (each recorded together with
the Authorization header the client would attach), the sequence of core.info
log events, and the outcome (normal return, or the raised error).
-/

namespace PortainerDeploy

/-- One entry of a stack environment: the TS type has
name: string and value: string or number or boolean; values are carried
verbatim, so we model them as strings. -/
structure EnvEntry where
  name : String
  value : String
deriving DecidableEq

/-- The Stack type of the TS source: Id, Name, Env. -/
structure Stack where
  Id : Nat
  Name : String
  Env : List EnvEntry
deriving DecidableEq

/-- An HTTP error as thrown by axios; the code only logs it and re-throws it
verbatim, so its content is an abstract payload. -/
structure HErr where
  data : String
deriving DecidableEq

/-- The HTTP requests the class can issue, one constructor per call site,
carrying the data the TS code puts in path, params and body. -/
inductive Request where
  | auth (username password : String)
  | listStacks (endpointId : Nat)
  | createReq (name stackFileContent : String) (env : List EnvEntry) (endpointId : Nat)
  | connectReq (endpointId : Nat) (network container : String)
  | updateReq (id : Nat) (env : List EnvEntry) (stackFileContent : String)
      (pullImage : Bool) (endpointId : Nat)
  | deleteReq (id : Nat) (endpointId : Nat)
  | disconnectReq (endpointId : Nat) (network container : String) (force : Bool)
  | imagePruneReq (endpointId : Nat)
  | volumePruneReq (endpointId : Nat)
deriving DecidableEq

/-- The core.info messages, one constructor per call site of core.info. -/
inductive LogEvent where
  | authenticating
  | authSucceeded
  | authFailed (e : HErr)
  | creating (name : String)
  | created (name : String) (id : Nat)
  | createFailed (e : HErr)
  | connected (name : String)
  | connectFailed (name : String) (e : HErr)
  | updating (name : String)
  | updated (name : String)
  | updateFailed (e : HErr)
  | disconnected (name : String)
  | disconnectFailed (name : String) (e : HErr)
  | deleting (name : String)
  | deleted (name : String)
  | removedImages (n : Nat)
  | removedVolumes (n : Nat)
  | deleteFailed (e : HErr)
deriving DecidableEq

/-- The client state: base URL and endpoint id are set by the constructor and
never written again; authHeader models
client.defaults.headers.common.Authorization, absent until authenticate
succeeds. -/
structure Client where
  baseURL : String
  endpointId : Nat
  authHeader : Option String
deriving DecidableEq

/-- A request as actually issued: the request together with the Authorization
default header attached by the axios instance at that moment. -/
structure Sent where
  authHeader : Option String
  req : Request
deriving DecidableEq

/-- Body of a successful auth response; the code reads data.jwt. -/
structure AuthBody where
  jwt : String
deriving DecidableEq

/-- One element of ImagesDeleted; the code reads x.Deleted. -/
structure ImgDel where
  Deleted : Bool
deriving DecidableEq

/-- Body of the image prune response; ImagesDeleted may be missing. -/
structure ImagePruneBody where
  ImagesDeleted : Option (List ImgDel)
deriving DecidableEq

/-- Body of the volume prune response; VolumesDeleted may be missing. -/
structure VolumePruneBody where
  VolumesDeleted : Option (List String)
deriving DecidableEq

/-- The response the server gives to each kind of request this class can
issue.  Each method issues each kind of request at most once, so one field
per kind determines a whole run of any method. -/
structure Oracle where
  authResp : Except HErr AuthBody
  stacksResp : Except HErr (List Stack)
  createResp : Except HErr Stack
  connectResp : Except HErr Unit
  updateResp : Except HErr Stack
  deleteResp : Except HErr Unit
  disconnectResp : Except HErr Unit
  imagePruneResp : Except HErr ImagePruneBody
  volumePruneResp : Except HErr VolumePruneBody

/-- Result of running one method: requests issued in order, log events in
order, and the outcome (ok = the method returned, error = it threw). -/
structure OpResult (α : Type) where
  sent : List Sent
  log : List LogEvent
  result : Except HErr α

/-- Issuing a request records the current default Authorization header. -/
def send (c : Client) (r : Request) : Sent := ⟨c.authHeader, r⟩

/-- authenticate: POST /auth; on success set the Bearer default header from
data.jwt; on failure log and re-throw. -/
def authenticate (c : Client) (o : Oracle) (username password : String) :
    OpResult Client :=
  let s := send c (Request.auth username password)
  match o.authResp with
  | Except.ok body =>
      ⟨[s], [LogEvent.authenticating, LogEvent.authSucceeded],
        Except.ok { c with authHeader := some ("Bearer " ++ body.jwt) }⟩
  | Except.error e =>
      ⟨[s], [LogEvent.authenticating, LogEvent.authFailed e], Except.error e⟩

/-- getStacks: GET /stacks with endpointId; any failure propagates with no
logging at this level. -/
def getStacks (c : Client) (o : Oracle) : OpResult (List Stack) :=
  let s := send c (Request.listStacks c.endpointId)
  match o.stacksResp with
  | Except.ok sl => ⟨[s], [], Except.ok sl⟩
  | Except.error e => ⟨[s], [], Except.error e⟩

/-- stacks.find((s) => s.Name === name): first exact, case-sensitive match. -/
def findStackIn (sl : List Stack) (name : String) : Option Stack :=
  sl.find? (fun s => s.Name == name)

/-- findStack: getStacks then Array.prototype.find by exact name. -/
def findStack (c : Client) (o : Oracle) (name : String) : OpResult (Option Stack) :=
  let g := getStacks c o
  match g.result with
  | Except.ok sl => ⟨g.sent, g.log, Except.ok (findStackIn sl name)⟩
  | Except.error e => ⟨g.sent, g.log, Except.error e⟩

/-- Object.entries(envVars).map(([name, value]) => ({name, value})). -/
def envOf (envVars : List (String × String)) : List EnvEntry :=
  envVars.map (fun p => ⟨p.1, p.2⟩)

/-- createStack: create request; on failure log and re-throw; on success a
separate try block connects the traefik container to name_network, any
failure there only logged. -/
def createStack (c : Client) (o : Oracle) (name stackFileContent : String)
    (envVars : List (String × String)) : OpResult Unit :=
  let s1 := send c (Request.createReq name stackFileContent (envOf envVars) c.endpointId)
  match o.createResp with
  | Except.error e =>
      ⟨[s1], [LogEvent.creating name, LogEvent.createFailed e], Except.error e⟩
  | Except.ok data =>
    let s2 := send c (Request.connectReq c.endpointId (name ++ "_network") "traefik")
    match o.connectResp with
    | Except.ok _ =>
        ⟨[s1, s2],
         [LogEvent.creating name, LogEvent.created data.Name data.Id,
          LogEvent.connected name], Except.ok ()⟩
    | Except.error e =>
        ⟨[s1, s2],
         [LogEvent.creating name, LogEvent.created data.Name data.Id,
          LogEvent.connectFailed name e], Except.ok ()⟩

/-- One iteration of the updateStack loop for key n with value v:
env.find((e) => e.name === name) mutates the first matching entry in
place, else env.push({name, value}) appends. -/
def updateFirst (env : List EnvEntry) (n v : String) : List EnvEntry :=
  match env with
  | [] => [⟨n, v⟩]
  | e :: es => if e.name = n then { e with value := v } :: es
               else e :: updateFirst es n v

/-- The whole updateStack loop over Object.entries(envVars) in order. -/
def mergeEnv (env : List EnvEntry) (envVars : List (String × String)) : List EnvEntry :=
  match envVars with
  | [] => env
  | (n, v) :: rest => mergeEnv (updateFirst env n v) rest

/-- updateStack: merge overrides into stack.Env, PUT /stacks/id with env,
stackFileContent, pullImage: true; on failure log and re-throw. -/
def updateStack (c : Client) (o : Oracle) (stack : Stack) (stackFileContent : String)
    (envVars : List (String × String)) : OpResult Unit :=
  let env := mergeEnv stack.Env envVars
  let s1 := send c (Request.updateReq stack.Id env stackFileContent true c.endpointId)
  match o.updateResp with
  | Except.ok data =>
      ⟨[s1], [LogEvent.updating stack.Name, LogEvent.updated data.Name], Except.ok ()⟩
  | Except.error e =>
      ⟨[s1], [LogEvent.updating stack.Name, LogEvent.updateFailed e], Except.error e⟩

/-- ImagesDeleted?.filter((x) => x.Deleted).length ?? 0. -/
def imagesRemovedCount (b : ImagePruneBody) : Nat :=
  (b.ImagesDeleted.map (fun l => (l.filter (fun x => x.Deleted)).length)).getD 0

/-- VolumesDeleted?.length ?? 0. -/
def volumesRemovedCount (b : VolumePruneBody) : Nat :=
  (b.VolumesDeleted.map List.length).getD 0

/-- The log entry of the best-effort disconnect step of deleteStack: success
or the suppressed failure. -/
def disconnectLog (o : Oracle) (name : String) : List LogEvent :=
  match o.disconnectResp with
  | Except.ok _ => [LogEvent.disconnected name]
  | Except.error e => [LogEvent.disconnectFailed name e]

/-- deleteStack: findStack; if absent return; if found, best-effort
disconnect (failure only logged), then one try block containing the DELETE
and both prune calls: any error in that block is logged as deletion failure
and re-thrown. -/
def deleteStack (c : Client) (o : Oracle) (name : String) : OpResult Unit :=
  let f := findStack c o name
  match f.result with
  | Except.error e => ⟨f.sent, f.log, Except.error e⟩
  | Except.ok none => ⟨f.sent, f.log, Except.ok ()⟩
  | Except.ok (some stack) =>
    let s2 := send c (Request.disconnectReq c.endpointId (name ++ "_network") "traefik" true)
    let dlog := disconnectLog o name
    let s3 := send c (Request.deleteReq stack.Id c.endpointId)
    match o.deleteResp with
    | Except.error e =>
        ⟨f.sent ++ [s2, s3],
         f.log ++ dlog ++ [LogEvent.deleting name, LogEvent.deleteFailed e],
         Except.error e⟩
    | Except.ok _ =>
      let s4 := send c (Request.imagePruneReq c.endpointId)
      match o.imagePruneResp with
      | Except.error e =>
          ⟨f.sent ++ [s2, s3, s4],
           f.log ++ dlog ++ [LogEvent.deleting name, LogEvent.deleted name,
             LogEvent.deleteFailed e],
           Except.error e⟩
      | Except.ok ib =>
        let s5 := send c (Request.volumePruneReq c.endpointId)
        match o.volumePruneResp with
        | Except.error e =>
            ⟨f.sent ++ [s2, s3, s4, s5],
             f.log ++ dlog ++ [LogEvent.deleting name, LogEvent.deleted name,
               LogEvent.removedImages (imagesRemovedCount ib), LogEvent.deleteFailed e],
             Except.error e⟩
        | Except.ok vb =>
            ⟨f.sent ++ [s2, s3, s4, s5],
             f.log ++ dlog ++ [LogEvent.deleting name, LogEvent.deleted name,
               LogEvent.removedImages (imagesRemovedCount ib),
               LogEvent.removedVolumes (volumesRemovedCount vb)],
             Except.ok ()⟩

/-- How many times a given request occurs in a trace. -/
def countReq (l : List Sent) (r : Request) : Nat :=
  (l.filter (fun s => decide (s.req = r))).length

/-! Concrete fixtures used by witnesses and counterexamples. -/

/-- A concrete client bound to endpoint 1, not yet authenticated. -/
def c0 : Client := ⟨"http://portainer.example", 1, none⟩

/-- A concrete stack named web. -/
def st0 : Stack := ⟨7, "web", [⟨"A", "1"⟩]⟩

/-- A concrete error payload. -/
def eBoom : HErr := ⟨"boom"⟩

/-- Oracle where every request succeeds and both prune bodies lack their
counters. -/
def oOk : Oracle :=
  ⟨Except.ok ⟨"tok"⟩, Except.ok [st0], Except.ok st0, Except.ok (),
   Except.ok st0, Except.ok (), Except.ok (), Except.ok ⟨none⟩, Except.ok ⟨none⟩⟩

/-- Like oOk but the image prune request fails. -/
def oPruneFail : Oracle := { oOk with imagePruneResp := Except.error eBoom }

/-- Like oOk but the stack list is empty. -/
def oEmpty : Oracle := { oOk with stacksResp := Except.ok [] }

/-- Like oOk but the create request fails. -/
def oCreateFail : Oracle := { oOk with createResp := Except.error eBoom }

/-- Like oOk but both network attach and detach requests fail. -/
def oNetFail : Oracle :=
  { oOk with connectResp := Except.error eBoom, disconnectResp := Except.error eBoom }

example : findStackIn [st0] "web" = some st0 := by decide
example : (deleteStack c0 oPruneFail "web").result = Except.error eBoom := rfl
example : (deleteStack c0 oEmpty "web").result = Except.ok () := rfl
example : (deleteStack c0 oOk "web").result = Except.ok () := rfl

/-! Helper lemmas. -/

theorem updateFirst_append_new (env : List EnvEntry) (n v : String)
    (h : ∀ e ∈ env, e.name ≠ n) : updateFirst env n v = env ++ [⟨n, v⟩] := by
  induction env with
  | nil => rfl
  | cons e es ih =>
      rw [updateFirst, if_neg (h e (List.mem_cons_self e es)), List.cons_append,
        ih (fun x hx => h x (List.mem_cons_of_mem e hx))]

theorem updateFirst_replace (pre post : List EnvEntry) (n w v : String)
    (h : ∀ x ∈ pre, x.name ≠ n) :
    updateFirst (pre ++ ⟨n, w⟩ :: post) n v = pre ++ ⟨n, v⟩ :: post := by
  induction pre with
  | nil => simp [updateFirst]
  | cons e es ih =>
      rw [List.cons_append, updateFirst, if_neg (h e (List.mem_cons_self e es)),
        List.cons_append, ih (fun x hx => h x (List.mem_cons_of_mem e hx))]

theorem updateFirst_names (env : List EnvEntry) (n v : String) :
    ∃ rest, (updateFirst env n v).map EnvEntry.name = env.map EnvEntry.name ++ rest := by
  induction env with
  | nil => exact ⟨[n], rfl⟩
  | cons e es ih =>
      by_cases h : e.name = n
      · exact ⟨[], by simp [updateFirst, h]⟩
      · obtain ⟨r, hr⟩ := ih
        exact ⟨r, by simp [updateFirst, h, hr]⟩

theorem mergeEnv_names (envVars : List (String × String)) (env : List EnvEntry) :
    ∃ rest, (mergeEnv env envVars).map EnvEntry.name = env.map EnvEntry.name ++ rest := by
  induction envVars generalizing env with
  | nil => exact ⟨[], by simp [mergeEnv]⟩
  | cons q rest ih =>
      obtain ⟨n, v⟩ := q
      obtain ⟨r2, h2⟩ := ih (updateFirst env n v)
      obtain ⟨r1, h1⟩ := updateFirst_names env n v
      exact ⟨r1 ++ r2, by rw [mergeEnv, h2, h1, List.append_assoc]⟩

theorem deleteStack_found_deleteFail (c : Client) (o : Oracle) (name : String)
    (sl : List Stack) (stk : Stack) (e : HErr)
    (hs : o.stacksResp = Except.ok sl) (hf : findStackIn sl name = some stk)
    (hd : o.deleteResp = Except.error e) :
    deleteStack c o name =
      ⟨[⟨c.authHeader, Request.listStacks c.endpointId⟩,
        ⟨c.authHeader, Request.disconnectReq c.endpointId (name ++ "_network") "traefik" true⟩,
        ⟨c.authHeader, Request.deleteReq stk.Id c.endpointId⟩],
       disconnectLog o name ++ [LogEvent.deleting name, LogEvent.deleteFailed e],
       Except.error e⟩ := by
  simp [deleteStack, findStack, getStacks, send, hs, hf, hd]

theorem deleteStack_found_imgFail (c : Client) (o : Oracle) (name : String)
    (sl : List Stack) (stk : Stack) (e : HErr)
    (hs : o.stacksResp = Except.ok sl) (hf : findStackIn sl name = some stk)
    (hd : o.deleteResp = Except.ok ())
    (hi : o.imagePruneResp = Except.error e) :
    deleteStack c o name =
      ⟨[⟨c.authHeader, Request.listStacks c.endpointId⟩,
        ⟨c.authHeader, Request.disconnectReq c.endpointId (name ++ "_network") "traefik" true⟩,
        ⟨c.authHeader, Request.deleteReq stk.Id c.endpointId⟩,
        ⟨c.authHeader, Request.imagePruneReq c.endpointId⟩],
       disconnectLog o name ++ [LogEvent.deleting name, LogEvent.deleted name,
         LogEvent.deleteFailed e],
       Except.error e⟩ := by
  simp [deleteStack, findStack, getStacks, send, hs, hf, hd, hi]

theorem deleteStack_found_volFail (c : Client) (o : Oracle) (name : String)
    (sl : List Stack) (stk : Stack) (ib : ImagePruneBody) (e : HErr)
    (hs : o.stacksResp = Except.ok sl) (hf : findStackIn sl name = some stk)
    (hd : o.deleteResp = Except.ok ())
    (hi : o.imagePruneResp = Except.ok ib)
    (hv : o.volumePruneResp = Except.error e) :
    deleteStack c o name =
      ⟨[⟨c.authHeader, Request.listStacks c.endpointId⟩,
        ⟨c.authHeader, Request.disconnectReq c.endpointId (name ++ "_network") "traefik" true⟩,
        ⟨c.authHeader, Request.deleteReq stk.Id c.endpointId⟩,
        ⟨c.authHeader, Request.imagePruneReq c.endpointId⟩,
        ⟨c.authHeader, Request.volumePruneReq c.endpointId⟩],
       disconnectLog o name ++ [LogEvent.deleting name, LogEvent.deleted name,
         LogEvent.removedImages (imagesRemovedCount ib), LogEvent.deleteFailed e],
       Except.error e⟩ := by
  simp [deleteStack, findStack, getStacks, send, hs, hf, hd, hi, hv]

theorem deleteStack_found_allOk (c : Client) (o : Oracle) (name : String)
    (sl : List Stack) (stk : Stack) (ib : ImagePruneBody) (vb : VolumePruneBody)
    (hs : o.stacksResp = Except.ok sl) (hf : findStackIn sl name = some stk)
    (hd : o.deleteResp = Except.ok ())
    (hi : o.imagePruneResp = Except.ok ib)
    (hv : o.volumePruneResp = Except.ok vb) :
    deleteStack c o name =
      ⟨[⟨c.authHeader, Request.listStacks c.endpointId⟩,
        ⟨c.authHeader, Request.disconnectReq c.endpointId (name ++ "_network") "traefik" true⟩,
        ⟨c.authHeader, Request.deleteReq stk.Id c.endpointId⟩,
        ⟨c.authHeader, Request.imagePruneReq c.endpointId⟩,
        ⟨c.authHeader, Request.volumePruneReq c.endpointId⟩],
       disconnectLog o name ++ [LogEvent.deleting name, LogEvent.deleted name,
         LogEvent.removedImages (imagesRemovedCount ib),
         LogEvent.removedVolumes (volumesRemovedCount vb)],
       Except.ok ()⟩ := by
  simp [deleteStack, findStack, getStacks, send, hs, hf, hd, hi, hv]

/-- C4: findStack returns absent when the list is empty or holds no stack
whose name equals the argument exactly (case-sensitive); otherwise it
returns the first stack in server order with that exact name, duplicates
included; absence is the normal outcome, not an error. -/
theorem findStack_first_exact_match (name : String) :
    findStackIn [] name = none ∧
    (∀ sl : List Stack, (∀ s ∈ sl, s.Name ≠ name) → findStackIn sl name = none) ∧
    (∀ (pre post : List Stack) (s : Stack), (∀ t ∈ pre, t.Name ≠ name) →
      s.Name = name → findStackIn (pre ++ s :: post) name = some s) ∧
    (∀ (c : Client) (o : Oracle) (sl : List Stack), o.stacksResp = Except.ok sl →
      (findStack c o name).result = Except.ok (findStackIn sl name)) := by
  refine ⟨rfl, ?_, ?_, ?_⟩
  · intro sl h
    rw [findStackIn, List.find?_eq_none]
    intro s hs
    simpa using h s hs
  · intro pre post s hpre hname
    induction pre with
    | nil => simp [findStackIn, List.find?_cons_of_pos, hname]
    | cons t ts ih =>
        have ht : ¬ (t.Name == name) = true := by
          simpa using hpre t (List.mem_cons_self t ts)
        have ih2 := ih (fun u hu => hpre u (List.mem_cons_of_mem t hu))
        rw [findStackIn] at ih2 ⊢
        rw [List.cons_append]
        have step : List.find? (fun s : Stack => s.Name == name) (t :: (ts ++ s :: post))
            = List.find? (fun s : Stack => s.Name == name) (ts ++ s :: post) :=
          List.find?_cons_of_neg _ ht
        exact step.trans ih2
  · intro c o sl hs
    simp [findStack, getStacks, hs]

/-- Closed instance of findStack_first_exact_match: two stacks named web,
the first one wins; a miss yields absence through a normal return. -/
theorem findStack_first_exact_match_witness :
    ((∀ t ∈ ([] : List Stack), t.Name ≠ "web") ∧ st0.Name = "web" ∧
      oOk.stacksResp = Except.ok [st0]) ∧
    findStackIn ([] ++ st0 :: [⟨9, "web", []⟩]) "web" = some st0 ∧
    (findStack c0 oOk "web").result = Except.ok (findStackIn [st0] "web") := by
  refine ⟨⟨by simp, by decide, rfl⟩, ?_, ?_⟩
  · exact (findStack_first_exact_match "web").2.2.1 [] [⟨9, "web", []⟩] st0
      (by simp) (by decide)
  · exact (findStack_first_exact_match "web").2.2.2 c0 oOk [st0] rfl

/-- C5: when the stack is absent, deleteStack issues only the single list
request of findStack and returns normally. -/
theorem deleteStack_absent_noop (c : Client) (o : Oracle) (name : String)
    (sl : List Stack) (hs : o.stacksResp = Except.ok sl)
    (hf : findStackIn sl name = none) :
    (deleteStack c o name).sent = [⟨c.authHeader, Request.listStacks c.endpointId⟩] ∧
    (deleteStack c o name).result = Except.ok () := by
  simp [deleteStack, findStack, getStacks, send, hs, hf]

/-- Closed instance of deleteStack_absent_noop on the empty stack list. -/
theorem deleteStack_absent_noop_witness :
    (oEmpty.stacksResp = Except.ok [] ∧ findStackIn [] "web" = none) ∧
    (deleteStack c0 oEmpty "web").sent = [⟨none, Request.listStacks 1⟩] ∧
    (deleteStack c0 oEmpty "web").result = Except.ok () := by
  refine ⟨⟨rfl, rfl⟩, ?_⟩
  exact deleteStack_absent_noop c0 oEmpty "web" [] rfl rfl

/-- C2: when the create request fails, createStack logs the failure and
re-raises the error, and the network connect request is never issued: the
trace is exactly the one create request. -/
theorem createStack_failure_propagates_no_connect (c : Client) (o : Oracle)
    (name sc : String) (ev : List (String × String)) (e : HErr)
    (hc : o.createResp = Except.error e) :
    (createStack c o name sc ev).result = Except.error e ∧
    (createStack c o name sc ev).sent
      = [⟨c.authHeader, Request.createReq name sc (envOf ev) c.endpointId⟩] ∧
    LogEvent.createFailed e ∈ (createStack c o name sc ev).log ∧
    (∀ s ∈ (createStack c o name sc ev).sent, ∀ eid net cont,
      s.req ≠ Request.connectReq eid net cont) := by
  simp [createStack, send, hc]

/-- Closed instance of createStack_failure_propagates_no_connect. -/
theorem createStack_failure_propagates_no_connect_witness :
    oCreateFail.createResp = Except.error eBoom ∧
    (createStack c0 oCreateFail "web" "x" []).result = Except.error eBoom ∧
    (createStack c0 oCreateFail "web" "x" []).sent
      = [⟨none, Request.createReq "web" "x" [] 1⟩] := by
  refine ⟨rfl, ?_, ?_⟩
  · exact (createStack_failure_propagates_no_connect c0 oCreateFail "web" "x" [] eBoom rfl).1
  · exact (createStack_failure_propagates_no_connect c0 oCreateFail "web" "x" [] eBoom rfl).2.1

/-- C3: updateStack transmits exactly the merge of the overrides into the
stack environment: an override whose name is present replaces the value of
the matching entry, an unmatched override is appended at the end, no entry
is removed and pre-existing entries keep their relative order; on the
spec example, environment A=1 with overrides A=2, B=3 transmits A=2, B=3. -/
theorem updateStack_env_merge_spec :
    (∀ (c : Client) (o : Oracle) (stack : Stack) (sc : String)
        (envVars : List (String × String)),
      (updateStack c o stack sc envVars).sent
        = [⟨c.authHeader,
            Request.updateReq stack.Id (mergeEnv stack.Env envVars) sc true c.endpointId⟩]) ∧
    (∀ (env : List EnvEntry) (n v : String), (∀ e ∈ env, e.name ≠ n) →
      updateFirst env n v = env ++ [⟨n, v⟩]) ∧
    (∀ (pre post : List EnvEntry) (n w v : String), (∀ x ∈ pre, x.name ≠ n) →
      updateFirst (pre ++ ⟨n, w⟩ :: post) n v = pre ++ ⟨n, v⟩ :: post) ∧
    (∀ (env : List EnvEntry) (envVars : List (String × String)),
      ∃ rest, (mergeEnv env envVars).map EnvEntry.name = env.map EnvEntry.name ++ rest) ∧
    mergeEnv [⟨"A", "1"⟩] [("A", "2"), ("B", "3")] = [⟨"A", "2"⟩, ⟨"B", "3"⟩] := by
  refine ⟨?_, updateFirst_append_new, updateFirst_replace,
    fun env envVars => mergeEnv_names envVars env, by decide⟩
  intro c o stack sc envVars
  cases h : o.updateResp <;> simp [updateStack, send, h]

/-- Closed instance of updateStack_env_merge_spec: the spec example run
through updateStack itself. -/
theorem updateStack_env_merge_spec_witness :
    (∀ e ∈ ([⟨"A", "1"⟩] : List EnvEntry), e.name ≠ "B") ∧
    updateFirst [⟨"A", "1"⟩] "B" "3" = [⟨"A", "1"⟩, ⟨"B", "3"⟩] ∧
    (updateStack c0 oOk st0 "x" [("A", "2"), ("B", "3")]).sent
      = [⟨none, Request.updateReq 7 [⟨"A", "2"⟩, ⟨"B", "3"⟩] "x" true 1⟩] := by
  refine ⟨by decide, ?_, ?_⟩
  · exact updateStack_env_merge_spec.2.1 [⟨"A", "1"⟩] "B" "3" (by decide)
  · exact (updateStack_env_merge_spec.1 c0 oOk st0 "x" [("A", "2"), ("B", "3")]).trans
      (by decide)

/-- C10: with duplicate names in the environment, an override replaces only
the first entry in list order; later duplicates keep their values and stay
in the transmitted environment. -/
theorem updateFirst_duplicate_names (c : Client) (o : Oracle) (sid : Nat)
    (nm sc : String) (pre mid post : List EnvEntry) (n v v2 v3 : String)
    (hpre : ∀ x ∈ pre, x.name ≠ n) :
    mergeEnv (pre ++ ⟨n, v⟩ :: (mid ++ ⟨n, v3⟩ :: post)) [(n, v2)]
      = pre ++ ⟨n, v2⟩ :: (mid ++ ⟨n, v3⟩ :: post) ∧
    (updateStack c o ⟨sid, nm, pre ++ ⟨n, v⟩ :: (mid ++ ⟨n, v3⟩ :: post)⟩ sc [(n, v2)]).sent
      = [⟨c.authHeader,
          Request.updateReq sid (pre ++ ⟨n, v2⟩ :: (mid ++ ⟨n, v3⟩ :: post)) sc true
            c.endpointId⟩] := by
  have h1 : mergeEnv (pre ++ ⟨n, v⟩ :: (mid ++ ⟨n, v3⟩ :: post)) [(n, v2)]
      = pre ++ ⟨n, v2⟩ :: (mid ++ ⟨n, v3⟩ :: post) := by
    rw [mergeEnv, mergeEnv]
    exact updateFirst_replace pre (mid ++ ⟨n, v3⟩ :: post) n v v2 hpre
  refine ⟨h1, ?_⟩
  cases h : o.updateResp <;> simp [updateStack, send, h, h1]

/-- Closed instance of updateFirst_duplicate_names: two entries named A,
override A=2 only rewrites the first. -/
theorem updateFirst_duplicate_names_witness :
    (∀ x ∈ ([] : List EnvEntry), x.name ≠ "A") ∧
    mergeEnv [⟨"A", "1"⟩, ⟨"A", "9"⟩] [("A", "2")] = [⟨"A", "2"⟩, ⟨"A", "9"⟩] := by
  refine ⟨by simp, ?_⟩
  have h := (updateFirst_duplicate_names c0 oOk 7 "web" "x" [] [] [] "A" "1" "2" "9"
    (by simp)).1
  simpa using h

/-- C6: with the stack found, the trace begins with the list request, the
best-effort disconnect, then the delete by stack id, in that order; when the
delete fails no prune request is ever issued, and when it succeeds the image
prune comes right after the delete. -/
theorem deleteStack_step_order (c : Client) (o : Oracle) (name : String)
    (sl : List Stack) (stk : Stack)
    (hs : o.stacksResp = Except.ok sl) (hf : findStackIn sl name = some stk) :
    (∃ rest, (deleteStack c o name).sent
        = [⟨c.authHeader, Request.listStacks c.endpointId⟩,
           ⟨c.authHeader, Request.disconnectReq c.endpointId (name ++ "_network") "traefik" true⟩,
           ⟨c.authHeader, Request.deleteReq stk.Id c.endpointId⟩] ++ rest) ∧
    (∀ e, o.deleteResp = Except.error e →
      (deleteStack c o name).sent
        = [⟨c.authHeader, Request.listStacks c.endpointId⟩,
           ⟨c.authHeader, Request.disconnectReq c.endpointId (name ++ "_network") "traefik" true⟩,
           ⟨c.authHeader, Request.deleteReq stk.Id c.endpointId⟩] ∧
      ∀ s ∈ (deleteStack c o name).sent, ∀ eid,
        s.req ≠ Request.imagePruneReq eid ∧ s.req ≠ Request.volumePruneReq eid) ∧
    (o.deleteResp = Except.ok () →
      ∃ rest, (deleteStack c o name).sent
        = [⟨c.authHeader, Request.listStacks c.endpointId⟩,
           ⟨c.authHeader, Request.disconnectReq c.endpointId (name ++ "_network") "traefik" true⟩,
           ⟨c.authHeader, Request.deleteReq stk.Id c.endpointId⟩,
           ⟨c.authHeader, Request.imagePruneReq c.endpointId⟩] ++ rest) := by
  cases hd : o.deleteResp with
  | error e0 =>
      rw [deleteStack_found_deleteFail c o name sl stk e0 hs hf hd]
      refine ⟨⟨[], by simp⟩, ?_, ?_⟩
      · intro e he
        refine ⟨by simp, ?_⟩
        intro s hsent eid
        simp only [List.mem_cons, List.not_mem_nil, or_false] at hsent
        rcases hsent with h | h | h <;> subst h <;> simp
      · intro hok
        exact absurd hok (by simp)
  | ok u =>
      cases u
      refine ⟨?_, fun e he => absurd he (by simp), ?_⟩
      · cases hi : o.imagePruneResp with
        | error e1 =>
            rw [deleteStack_found_imgFail c o name sl stk e1 hs hf hd hi]
            exact ⟨[⟨c.authHeader, Request.imagePruneReq c.endpointId⟩], by simp⟩
        | ok ib =>
            cases hv : o.volumePruneResp with
            | error e2 =>
                rw [deleteStack_found_volFail c o name sl stk ib e2 hs hf hd hi hv]
                exact ⟨[⟨c.authHeader, Request.imagePruneReq c.endpointId⟩,
                  ⟨c.authHeader, Request.volumePruneReq c.endpointId⟩], by simp⟩
            | ok vb =>
                rw [deleteStack_found_allOk c o name sl stk ib vb hs hf hd hi hv]
                exact ⟨[⟨c.authHeader, Request.imagePruneReq c.endpointId⟩,
                  ⟨c.authHeader, Request.volumePruneReq c.endpointId⟩], by simp⟩
      · intro _
        cases hi : o.imagePruneResp with
        | error e1 =>
            rw [deleteStack_found_imgFail c o name sl stk e1 hs hf hd hi]
            exact ⟨[], by simp⟩
        | ok ib =>
            cases hv : o.volumePruneResp with
            | error e2 =>
                rw [deleteStack_found_volFail c o name sl stk ib e2 hs hf hd hi hv]
                exact ⟨[⟨c.authHeader, Request.volumePruneReq c.endpointId⟩], by simp⟩
            | ok vb =>
                rw [deleteStack_found_allOk c o name sl stk ib vb hs hf hd hi hv]
                exact ⟨[⟨c.authHeader, Request.volumePruneReq c.endpointId⟩], by simp⟩

/-- Closed instance of deleteStack_step_order on a successful delete. -/
theorem deleteStack_step_order_witness :
    (oOk.stacksResp = Except.ok [st0] ∧ findStackIn [st0] "web" = some st0 ∧
      oOk.deleteResp = Except.ok ()) ∧
    (∃ rest, (deleteStack c0 oOk "web").sent
        = [⟨none, Request.listStacks 1⟩,
           ⟨none, Request.disconnectReq 1 "web_network" "traefik" true⟩,
           ⟨none, Request.deleteReq 7 1⟩,
           ⟨none, Request.imagePruneReq 1⟩] ++ rest) := by
  refine ⟨⟨rfl, by decide, rfl⟩, ?_⟩
  exact (deleteStack_step_order c0 oOk "web" [st0] st0 rfl (by decide)).2.2 rfl

/-- C1 as stated fails on the code: a concrete run where the stack is found,
the delete succeeds and the image prune fails, yet deleteStack re-raises the
prune error instead of returning normally. -/
theorem deleteStack_prune_failure_not_suppressed_cex :
    oPruneFail.stacksResp = Except.ok [st0] ∧
    findStackIn [st0] "web" = some st0 ∧
    oPruneFail.deleteResp = Except.ok () ∧
    oPruneFail.imagePruneResp = Except.error eBoom ∧
    (deleteStack c0 oPruneFail "web").result = Except.error eBoom ∧
    (deleteStack c0 oPruneFail "web").result ≠ Except.ok () := by
  refine ⟨rfl, by decide, rfl, rfl, rfl, ?_⟩
  have h : (deleteStack c0 oPruneFail "web").result = Except.error eBoom := rfl
  rw [h]
  simp

/-- C1 (amended): with the stack found and the delete succeeded, a failure
of the image prune or the volume prune is logged through the deletion
failure handler and re-raised: deleteStack reports that error instead of
overall success. -/
theorem deleteStack_prune_failure_logged_and_reraised (c : Client) (o : Oracle)
    (name : String) (sl : List Stack) (stk : Stack) (e : HErr)
    (hs : o.stacksResp = Except.ok sl) (hf : findStackIn sl name = some stk)
    (hd : o.deleteResp = Except.ok ())
    (hp : o.imagePruneResp = Except.error e ∨
      ∃ ib, o.imagePruneResp = Except.ok ib ∧ o.volumePruneResp = Except.error e) :
    (deleteStack c o name).result = Except.error e ∧
    LogEvent.deleteFailed e ∈ (deleteStack c o name).log := by
  rcases hp with hi | ⟨ib, hi, hv⟩
  · rw [deleteStack_found_imgFail c o name sl stk e hs hf hd hi]
    exact ⟨rfl, by simp⟩
  · rw [deleteStack_found_volFail c o name sl stk ib e hs hf hd hi hv]
    exact ⟨rfl, by simp⟩

/-- Closed instance of deleteStack_prune_failure_logged_and_reraised. -/
theorem deleteStack_prune_failure_logged_and_reraised_witness :
    (oPruneFail.stacksResp = Except.ok [st0] ∧ findStackIn [st0] "web" = some st0 ∧
      oPruneFail.deleteResp = Except.ok () ∧
      oPruneFail.imagePruneResp = Except.error eBoom) ∧
    (deleteStack c0 oPruneFail "web").result = Except.error eBoom ∧
    LogEvent.deleteFailed eBoom ∈ (deleteStack c0 oPruneFail "web").log := by
  refine ⟨⟨rfl, by decide, rfl, rfl⟩, ?_⟩
  exact deleteStack_prune_failure_logged_and_reraised c0 oPruneFail "web" [st0] st0
    eBoom rfl (by decide) rfl (Or.inl rfl)

/-- C9 as stated fails on the code: a concrete run whose delete request
succeeds but whose image prune fails, so the volume prune request is never
issued (zero attempts, not one). -/
theorem deleteStack_prune_once_cex :
    oPruneFail.deleteResp = Except.ok () ∧
    (deleteStack c0 oPruneFail "web").sent
      = [⟨none, Request.listStacks 1⟩,
         ⟨none, Request.disconnectReq 1 "web_network" "traefik" true⟩,
         ⟨none, Request.deleteReq 7 1⟩,
         ⟨none, Request.imagePruneReq 1⟩] ∧
    countReq (deleteStack c0 oPruneFail "web").sent (Request.volumePruneReq 1) = 0 := by
  exact ⟨rfl, by decide, by decide⟩

/-- C9 (amended): for every deleteStack call whose delete request succeeds,
the image prune request is issued exactly once whatever the prune responses
are; the volume prune request is issued exactly once when the image prune
succeeds and is never issued when the image prune fails; a prune body
lacking its counters is logged as 0 removed, and when both counter-less
prunes succeed deleteStack returns normally. -/
theorem deleteStack_prune_attempts_and_counters (c : Client) (o : Oracle)
    (name : String) (sl : List Stack) (stk : Stack)
    (hs : o.stacksResp = Except.ok sl) (hf : findStackIn sl name = some stk)
    (hd : o.deleteResp = Except.ok ()) :
    countReq (deleteStack c o name).sent (Request.imagePruneReq c.endpointId) = 1 ∧
    (∀ ib, o.imagePruneResp = Except.ok ib →
      countReq (deleteStack c o name).sent (Request.volumePruneReq c.endpointId) = 1) ∧
    (∀ e, o.imagePruneResp = Except.error e →
      countReq (deleteStack c o name).sent (Request.volumePruneReq c.endpointId) = 0) ∧
    (o.imagePruneResp = Except.ok ⟨none⟩ →
      LogEvent.removedImages 0 ∈ (deleteStack c o name).log) ∧
    (∀ ib, o.imagePruneResp = Except.ok ib → o.volumePruneResp = Except.ok ⟨none⟩ →
      LogEvent.removedVolumes 0 ∈ (deleteStack c o name).log) ∧
    (o.imagePruneResp = Except.ok ⟨none⟩ → o.volumePruneResp = Except.ok ⟨none⟩ →
      (deleteStack c o name).result = Except.ok ()) := by
  cases hi : o.imagePruneResp with
  | error e1 =>
      rw [deleteStack_found_imgFail c o name sl stk e1 hs hf hd hi]
      refine ⟨by simp [countReq, List.filter_cons],
        fun ib hib => absurd hib (by simp),
        fun e he => by simp [countReq, List.filter_cons],
        fun hn => absurd hn (by simp),
        fun ib hib => absurd hib (by simp),
        fun hn => absurd hn (by simp)⟩
  | ok ib =>
      cases hv : o.volumePruneResp with
      | error e2 =>
          rw [deleteStack_found_volFail c o name sl stk ib e2 hs hf hd hi hv]
          refine ⟨by simp [countReq, List.filter_cons],
            fun ib2 hib2 => by simp [countReq, List.filter_cons],
            fun e he => absurd he (by simp), ?_,
            fun ib2 hib2 hv2 => absurd hv2 (by simp),
            fun hn hv2 => absurd hv2 (by simp)⟩
          intro hn
          injection hn with h
          subst h
          simp [imagesRemovedCount]
      | ok vb =>
          rw [deleteStack_found_allOk c o name sl stk ib vb hs hf hd hi hv]
          refine ⟨by simp [countReq, List.filter_cons],
            fun ib2 hib2 => by simp [countReq, List.filter_cons],
            fun e he => absurd he (by simp), ?_, ?_, fun hn hv2 => rfl⟩
          · intro hn
            injection hn with h
            subst h
            simp [imagesRemovedCount]
          · intro ib2 hib2 hv2
            injection hv2 with h
            subst h
            simp [volumesRemovedCount]

/-- Closed instance of deleteStack_prune_attempts_and_counters on a run
where both prune bodies lack their counters. -/
theorem deleteStack_prune_attempts_and_counters_witness :
    (oOk.stacksResp = Except.ok [st0] ∧ findStackIn [st0] "web" = some st0 ∧
      oOk.deleteResp = Except.ok ()) ∧
    countReq (deleteStack c0 oOk "web").sent (Request.imagePruneReq 1) = 1 ∧
    countReq (deleteStack c0 oOk "web").sent (Request.volumePruneReq 1) = 1 ∧
    LogEvent.removedImages 0 ∈ (deleteStack c0 oOk "web").log ∧
    LogEvent.removedVolumes 0 ∈ (deleteStack c0 oOk "web").log ∧
    (deleteStack c0 oOk "web").result = Except.ok () := by
  have h := deleteStack_prune_attempts_and_counters c0 oOk "web" [st0] st0 rfl
    (by decide) rfl
  exact ⟨⟨rfl, by decide, rfl⟩, h.1, h.2.1 ⟨none⟩ rfl, h.2.2.2.1 rfl,
    h.2.2.2.2.1 ⟨none⟩ rfl rfl, h.2.2.2.2.2 rfl rfl⟩

theorem sent_header_getStacks (c : Client) (o : Oracle) :
    ∀ s ∈ (getStacks c o).sent, s.authHeader = c.authHeader := by
  cases h : o.stacksResp <;> simp [getStacks, send, h]

theorem sent_header_findStack (c : Client) (o : Oracle) (name : String) :
    ∀ s ∈ (findStack c o name).sent, s.authHeader = c.authHeader := by
  cases h : o.stacksResp <;> simp [findStack, getStacks, send, h]

theorem sent_header_createStack (c : Client) (o : Oracle) (name sc : String)
    (ev : List (String × String)) :
    ∀ s ∈ (createStack c o name sc ev).sent, s.authHeader = c.authHeader := by
  cases h : o.createResp <;> cases h2 : o.connectResp <;>
    simp [createStack, send, h, h2]

theorem sent_header_updateStack (c : Client) (o : Oracle) (stk : Stack) (sc : String)
    (ev : List (String × String)) :
    ∀ s ∈ (updateStack c o stk sc ev).sent, s.authHeader = c.authHeader := by
  cases h : o.updateResp <;> simp [updateStack, send, h]

theorem sent_header_deleteStack (c : Client) (o : Oracle) (name : String) :
    ∀ s ∈ (deleteStack c o name).sent, s.authHeader = c.authHeader := by
  cases hs : o.stacksResp with
  | error e => simp [deleteStack, findStack, getStacks, send, hs]
  | ok sl =>
    cases hf : findStackIn sl name with
    | none => simp [deleteStack, findStack, getStacks, send, hs, hf]
    | some stk =>
      cases hd : o.deleteResp with
      | error e0 =>
          rw [deleteStack_found_deleteFail c o name sl stk e0 hs hf hd]; simp
      | ok u =>
          cases u
          cases hi : o.imagePruneResp with
          | error e1 =>
              rw [deleteStack_found_imgFail c o name sl stk e1 hs hf hd hi]; simp
          | ok ib =>
              cases hv : o.volumePruneResp with
              | error e2 =>
                  rw [deleteStack_found_volFail c o name sl stk ib e2 hs hf hd hi hv]
                  simp
              | ok vb =>
                  rw [deleteStack_found_allOk c o name sl stk ib vb hs hf hd hi hv]
                  simp

theorem sent_header_authenticate (c : Client) (o : Oracle) (u p : String) :
    ∀ s ∈ (authenticate c o u p).sent, s.authHeader = c.authHeader := by
  cases h : o.authResp <;> simp [authenticate, send, h]

theorem deleteStack_result_disconnect_independent (c : Client) (o o2 : Oracle)
    (name : String)
    (h1 : o2.stacksResp = o.stacksResp) (h2 : o2.deleteResp = o.deleteResp)
    (h3 : o2.imagePruneResp = o.imagePruneResp)
    (h4 : o2.volumePruneResp = o.volumePruneResp) :
    (deleteStack c o name).result = (deleteStack c o2 name).result := by
  cases hs : o.stacksResp with
  | error e =>
      simp [deleteStack, findStack, getStacks, send, hs, h1.trans hs]
  | ok sl =>
      have hs2 : o2.stacksResp = Except.ok sl := h1.trans hs
      cases hf : findStackIn sl name with
      | none => simp [deleteStack, findStack, getStacks, send, hs, hs2, hf]
      | some stk =>
          cases hd : o.deleteResp with
          | error e0 =>
              rw [deleteStack_found_deleteFail c o name sl stk e0 hs hf hd,
                deleteStack_found_deleteFail c o2 name sl stk e0 hs2 hf (h2.trans hd)]
          | ok u =>
              cases u
              cases hi : o.imagePruneResp with
              | error e1 =>
                  rw [deleteStack_found_imgFail c o name sl stk e1 hs hf hd hi,
                    deleteStack_found_imgFail c o2 name sl stk e1 hs2 hf
                      (h2.trans hd) (h3.trans hi)]
              | ok ib =>
                  cases hv : o.volumePruneResp with
                  | error e3 =>
                      rw [deleteStack_found_volFail c o name sl stk ib e3 hs hf hd hi hv,
                        deleteStack_found_volFail c o2 name sl stk ib e3 hs2 hf
                          (h2.trans hd) (h3.trans hi) (h4.trans hv)]
                  | ok vb =>
                      rw [deleteStack_found_allOk c o name sl stk ib vb hs hf hd hi hv,
                        deleteStack_found_allOk c o2 name sl stk ib vb hs2 hf
                          (h2.trans hd) (h3.trans hi) (h4.trans hv)]

/-- C8: a failure of the reverse-proxy network connect in createStack, or of
the disconnect in deleteStack, is logged and never propagated: createStack
still returns normally, and deleteStack behaves exactly as it would had the
disconnect succeeded. -/
theorem network_failures_suppressed (c : Client) (o : Oracle)
    (nm sc : String) (ev : List (String × String)) (st : Stack)
    (sl : List Stack) (stk : Stack) (e e2 : HErr)
    (hc : o.createResp = Except.ok st) (hce : o.connectResp = Except.error e)
    (hs : o.stacksResp = Except.ok sl) (hf : findStackIn sl nm = some stk)
    (hde : o.disconnectResp = Except.error e2) :
    (createStack c o nm sc ev).result = Except.ok () ∧
    LogEvent.connectFailed nm e ∈ (createStack c o nm sc ev).log ∧
    LogEvent.disconnectFailed nm e2 ∈ (deleteStack c o nm).log ∧
    (deleteStack c o nm).result
      = (deleteStack c { o with disconnectResp := Except.ok () } nm).result := by
  refine ⟨by simp [createStack, send, hc, hce],
    by simp [createStack, send, hc, hce], ?_, ?_⟩
  · cases hd : o.deleteResp with
    | error ed =>
        rw [deleteStack_found_deleteFail c o nm sl stk ed hs hf hd]
        simp [disconnectLog, hde]
    | ok u =>
        cases u
        cases hi : o.imagePruneResp with
        | error e1 =>
            rw [deleteStack_found_imgFail c o nm sl stk e1 hs hf hd hi]
            simp [disconnectLog, hde]
        | ok ib =>
            cases hv : o.volumePruneResp with
            | error e3 =>
                rw [deleteStack_found_volFail c o nm sl stk ib e3 hs hf hd hi hv]
                simp [disconnectLog, hde]
            | ok vb =>
                rw [deleteStack_found_allOk c o nm sl stk ib vb hs hf hd hi hv]
                simp [disconnectLog, hde]
  · exact deleteStack_result_disconnect_independent c o
      { o with disconnectResp := Except.ok () } nm rfl rfl rfl rfl

/-- Closed instance of network_failures_suppressed: connect and disconnect
both fail, create still succeeds and the deletion outcome is unchanged. -/
theorem network_failures_suppressed_witness :
    (oNetFail.createResp = Except.ok st0 ∧ oNetFail.connectResp = Except.error eBoom ∧
      oNetFail.stacksResp = Except.ok [st0] ∧ findStackIn [st0] "web" = some st0 ∧
      oNetFail.disconnectResp = Except.error eBoom) ∧
    (createStack c0 oNetFail "web" "x" []).result = Except.ok () ∧
    LogEvent.disconnectFailed "web" eBoom ∈ (deleteStack c0 oNetFail "web").log := by
  refine ⟨⟨rfl, rfl, rfl, by decide, rfl⟩, ?_, ?_⟩
  · exact (network_failures_suppressed c0 oNetFail "web" "x" [] st0 [st0] st0 eBoom
      eBoom rfl rfl rfl (by decide) rfl).1
  · exact (network_failures_suppressed c0 oNetFail "web" "x" [] st0 [st0] st0 eBoom
      eBoom rfl rfl rfl (by decide) rfl).2.2.1

/-- C7: a successful authenticate stores Authorization Bearer jwt from the
login body as the client default, and every request issued afterwards by any
operation of that client carries exactly this header; no operation changes
it. -/
theorem auth_header_on_subsequent_requests (c c2 : Client) (o : Oracle)
    (u p : String) (body : AuthBody)
    (ha : o.authResp = Except.ok body)
    (h2 : (authenticate c o u p).result = Except.ok c2) :
    c2.authHeader = some ("Bearer " ++ body.jwt) ∧
    (∀ o2 : Oracle, ∀ s ∈ (getStacks c2 o2).sent,
      s.authHeader = some ("Bearer " ++ body.jwt)) ∧
    (∀ (o2 : Oracle) (nm : String), ∀ s ∈ (findStack c2 o2 nm).sent,
      s.authHeader = some ("Bearer " ++ body.jwt)) ∧
    (∀ (o2 : Oracle) (nm sc : String) (ev : List (String × String)),
      ∀ s ∈ (createStack c2 o2 nm sc ev).sent,
        s.authHeader = some ("Bearer " ++ body.jwt)) ∧
    (∀ (o2 : Oracle) (stk : Stack) (sc : String) (ev : List (String × String)),
      ∀ s ∈ (updateStack c2 o2 stk sc ev).sent,
        s.authHeader = some ("Bearer " ++ body.jwt)) ∧
    (∀ (o2 : Oracle) (nm : String), ∀ s ∈ (deleteStack c2 o2 nm).sent,
      s.authHeader = some ("Bearer " ++ body.jwt)) := by
  have hc2 : c2.authHeader = some ("Bearer " ++ body.jwt) := by
    simp [authenticate, ha] at h2
    rw [← h2]
  refine ⟨hc2, ?_, ?_, ?_, ?_, ?_⟩
  · intro o2 s hsent
    rw [← hc2]
    exact sent_header_getStacks c2 o2 s hsent
  · intro o2 nm s hsent
    rw [← hc2]
    exact sent_header_findStack c2 o2 nm s hsent
  · intro o2 nm sc ev s hsent
    rw [← hc2]
    exact sent_header_createStack c2 o2 nm sc ev s hsent
  · intro o2 stk sc ev s hsent
    rw [← hc2]
    exact sent_header_updateStack c2 o2 stk sc ev s hsent
  · intro o2 nm s hsent
    rw [← hc2]
    exact sent_header_deleteStack c2 o2 nm s hsent

/-- Closed instance of auth_header_on_subsequent_requests: after login with
jwt tok, the list request of getStacks carries Authorization Bearer tok. -/
theorem auth_header_on_subsequent_requests_witness :
    (oOk.authResp = Except.ok ⟨"tok"⟩ ∧
      (authenticate c0 oOk "u" "p").result
        = Except.ok { c0 with authHeader := some ("Bearer " ++ "tok") }) ∧
    ∀ s ∈ (getStacks { c0 with authHeader := some ("Bearer " ++ "tok") } oOk).sent,
      s.authHeader = some ("Bearer " ++ "tok") := by
  refine ⟨⟨rfl, rfl⟩, ?_⟩
  exact (auth_header_on_subsequent_requests c0
    { c0 with authHeader := some ("Bearer " ++ "tok") } oOk "u" "p" ⟨"tok"⟩
    rfl rfl).2.1 oOk

end PortainerDeploy
